import Mathlib

/-!
# Shallow embedding of `prefect/task_runners.py`

This file embeds the task-runner concurrency core of the repository
(`src/prefect/task_runners.py`) in Lean 4 and proves the specification
claims about it.

Modelling conventions:
* Python `dict` objects keyed by `UUID` become association lists
  (`List (UUID × α)`) with insert-or-overwrite semantics (`dictInsert`);
  a fresh key is appended, preserving Python insertion order.
* A zero-argument callable is a `Call`: evaluating it either returns a
  terminal `State` or raises an exception (carried as a numeric id).
* Methods that mutate `self` and cannot raise are total functions on the
  runner state; methods whose checks precede any mutation return
  `Except PyErr`; methods that may mutate and then raise return a pair
  of the posterior state and an optional exception.
* Blocking (`wait`-style) methods are evaluated against a snapshot of the
  runner state: returning the absent value models the timeout elapsing
  before the awaited signal fired, and a completed work item is modelled
  by an explicit scheduler/worker step having run before the call.
-/

namespace Prefect

/-- Run keys (`uuid.UUID` in the source) are modelled as naturals. -/
abbrev UUID := Nat

/-- Exceptions (`BaseException` instances) are carried as numeric ids. -/
abbrev Exc := Nat

/-- Terminal orchestration states (the opaque `State` values produced by
submitted callables). `crashed` is the variant produced by converting a
raised exception. -/
inductive State where
  | completed (v : Nat)
  | failed (v : Nat)
  | crashed (exc : Exc)
deriving DecidableEq, Repr

/-- Modelled from the spec: `exception_to_crashed_state` lives in
`prefect/states.py`, which is not part of the provided sources; per the
spec it converts an unexpected fault raised during execution into a
crashed Outcome so the fault never escapes the runner. -/
def exception_to_crashed_state (exc : Exc) : State :=
  State.crashed exc

/-- Model of `run_sync` (from `prefect/utilities/asyncutils.py`, not in the provided
sources) runs a coroutine to completion; on a pure value it is the
identity. -/
def run_sync {α : Type} (a : α) : α := a

/-- A zero-argument callable bound to a key at submission time: evaluating
it either returns a terminal `State` or raises an exception. -/
inductive Call where
  | returns (s : State)
  | raises (e : Exc)
deriving DecidableEq, Repr

/-- Python exceptions that the runner methods themselves can raise. -/
inductive PyErr where
  | runtimeError (msg : String)
  | keyError (key : UUID)
  | notImplementedError
deriving DecidableEq, Repr

/-! ## Python `dict` model -/

/-- Lookup in a Python `dict` modelled as an association list. -/
def dictLookup {α : Type} : List (UUID × α) → UUID → Option α
  | [], _ => none
  | (k, v) :: rest, k' => if k = k' then some v else dictLookup rest k'

/-- Model of `d[key] = value` on a Python `dict`: overwrite in place when the key is
present, append otherwise (Python dicts preserve insertion order). -/
def dictInsert {α : Type} (m : List (UUID × α)) (k : UUID) (v : α) :
    List (UUID × α) :=
  match m with
  | [] => [(k, v)]
  | (k', v') :: rest =>
      if k' = k then (k, v) :: rest else (k', v') :: dictInsert rest k v

theorem dictLookup_dictInsert_self {α : Type} (m : List (UUID × α))
    (k : UUID) (v : α) : dictLookup (dictInsert m k v) k = some v := by
  induction m with
  | nil => simp [dictInsert, dictLookup]
  | cons hd tl ih =>
      obtain ⟨k', v'⟩ := hd
      by_cases h : k' = k
      · simp [dictInsert, dictLookup, h]
      · simp [dictInsert, dictLookup, h, ih]

theorem dictLookup_dictInsert_ne {α : Type} (m : List (UUID × α))
    (k k' : UUID) (v : α) (h : k ≠ k') :
    dictLookup (dictInsert m k v) k' = dictLookup m k' := by
  induction m with
  | nil => simp [dictInsert, dictLookup, h]
  | cons hd tl ih =>
      obtain ⟨k₀, v₀⟩ := hd
      by_cases h₀ : k₀ = k
      · subst h₀
        simp [dictInsert, dictLookup, h]
      · simp [dictInsert, dictLookup, h₀, ih]

theorem dictInsert_fresh {α : Type} (m : List (UUID × α)) (k : UUID)
    (v : α) (h : dictLookup m k = none) :
    dictInsert m k v = m ++ [(k, v)] := by
  induction m with
  | nil => simp [dictInsert]
  | cons hd tl ih =>
      obtain ⟨k₀, v₀⟩ := hd
      by_cases h₀ : k₀ = k
      · simp [dictLookup, h₀] at h
      · simp [dictLookup, h₀] at h
        simp [dictInsert, h₀, ih h]

/-! ## Runner variants, names, equality -/

/-- The concrete runner variants present in the source file. -/
inductive RunnerKind where
  | sequential
  | concurrent
deriving DecidableEq, Repr

/-- Model of `type(self).__name__` for each variant. -/
def className : RunnerKind → String
  | .sequential => "SequentialTaskRunner"
  | .concurrent => "ConcurrentTaskRunner"

/-- Model of `BaseTaskRunner.name`:
`type(self).__name__.lower().replace("taskrunner", "")`. -/
def runnerName (k : RunnerKind) : String :=
  ((className k).toLower).replace "taskrunner" ""

/-- Model of `TaskConcurrencyType` enumeration. -/
inductive TaskConcurrencyType where
  | SEQUENTIAL
  | CONCURRENT
  | PARALLEL
deriving DecidableEq, Repr

/-- Model of `concurrency_type` property of each concrete variant. -/
def concurrency_type : RunnerKind → TaskConcurrencyType
  | .sequential => TaskConcurrencyType.SEQUENTIAL
  | .concurrent => TaskConcurrencyType.CONCURRENT

/-! ## SequentialTaskRunner -/

/-- Model of `SequentialTaskRunner`: lifecycle flag from the base class plus the
`_results` table. -/
structure SequentialTaskRunner where
  started : Bool
  results : List (UUID × State)
deriving DecidableEq, Repr

/-- Model of `SequentialTaskRunner.__init__`: not started, empty result table. -/
def SequentialTaskRunner.init : SequentialTaskRunner :=
  { started := false, results := [] }

/-- Entering `BaseTaskRunner.start` (shared with every variant): raises if
already started, otherwise acquires resources via `_start` (a no-op for the
sequential variant) and sets `_started`. -/
def SequentialTaskRunner.start (r : SequentialTaskRunner) :
    Except PyErr SequentialTaskRunner :=
  if r.started then
    Except.error (PyErr.runtimeError "The task runner is already started!")
  else
    Except.ok { r with started := true }

/-- Exiting the `BaseTaskRunner.start` scope: the `finally` block clears
`_started`. -/
def SequentialTaskRunner.stop (r : SequentialTaskRunner) :
    SequentialTaskRunner :=
  { r with started := false }

/-- Model of `SequentialTaskRunner.submit`: runs the callable immediately inline,
converting any raised exception into a crashed state, and stores the result
in `_results` before returning. Note the source performs no `_started`
check here and cannot raise. -/
def SequentialTaskRunner.submit (r : SequentialTaskRunner) (key : UUID)
    (call : Call) : SequentialTaskRunner :=
  let result :=
    match call with
    | Call.returns s => s
    | Call.raises exc => exception_to_crashed_state exc
  { r with results := dictInsert r.results key result }

/-- Model of `SequentialTaskRunner.wait`: `return self._results[key]` — a direct
dictionary access that raises `KeyError` on an unknown key and otherwise
returns the stored state (the timeout is ignored). -/
def SequentialTaskRunner.wait (r : SequentialTaskRunner) (key : UUID) :
    Except PyErr State :=
  match dictLookup r.results key with
  | some s => Except.ok s
  | none => Except.error (PyErr.keyError key)

/-! ## ConcurrentTaskRunner -/

/-- A `concurrent.futures.Future` handle for work dispatched to the thread
pool: `running` holds the not-yet-executed callable, `done` marks a future
whose worker has finished. -/
inductive FutureState where
  | running (call : Call)
  | done
deriving DecidableEq, Repr

/-- Model of `ConcurrentTaskRunner` state. `task_group` is `none` when the
`_task_group` attribute is `None` (never started, or stripped by
serialization); when live it carries the scheduled-but-not-yet-run
cooperative callables. `executor` is `none` when `_executor` is `None`.
`result_events` maps a key to whether its `Event` is set. -/
structure ConcurrentTaskRunner where
  started : Bool
  task_group : Option (List (UUID × Call))
  result_events : List (UUID × Bool)
  results : List (UUID × State)
  keys : List UUID
  executor : Option Unit
  futures : List (UUID × FutureState)
deriving DecidableEq, Repr

/-- Model of `ConcurrentTaskRunner.__init__`. -/
def ConcurrentTaskRunner.init : ConcurrentTaskRunner :=
  { started := false
    task_group := none
    result_events := []
    results := []
    keys := []
    executor := none
    futures := [] }

/-- Model of `BaseTaskRunner.start` entered on a `ConcurrentTaskRunner`: raises if
already started, otherwise `_start` opens a fresh `anyio` task group and a
`ThreadPoolExecutor`, then `_started` is set. -/
def ConcurrentTaskRunner.start (r : ConcurrentTaskRunner) :
    Except PyErr ConcurrentTaskRunner :=
  if r.started then
    Except.error (PyErr.runtimeError "The task runner is already started!")
  else
    Except.ok { r with
      started := true
      task_group := some []
      executor := some () }

/-- Model of `ConcurrentTaskRunner.submit` (cooperative path): checks `_started`,
then that `_task_group` was not stripped by serialization; creates an
unset completion `Event` for the key and hands the callable to the task
group via `start_soon` to run later. -/
def ConcurrentTaskRunner.submit (r : ConcurrentTaskRunner) (key : UUID)
    (call : Call) : Except PyErr ConcurrentTaskRunner :=
  if !r.started then
    Except.error (PyErr.runtimeError
      "The task runner must be started before submitting work.")
  else
    match r.task_group with
    | none =>
        Except.error (PyErr.runtimeError
          "The concurrent task runner cannot be used to submit work after serialization.")
    | some tg =>
        Except.ok { r with
          result_events := dictInsert r.result_events key false
          task_group := some (tg ++ [(key, call)]) }

/-- Model of `ConcurrentTaskRunner.submit_sync` (blocking path): checks `_started`,
then that `_executor` was not stripped by serialization; copies the caller
context and dispatches the callable to the thread pool, recording the
in-flight future under the key. -/
def ConcurrentTaskRunner.submit_sync (r : ConcurrentTaskRunner) (key : UUID)
    (call : Call) : Except PyErr ConcurrentTaskRunner :=
  if !r.started then
    Except.error (PyErr.runtimeError
      "The task runner must be started before submitting work.")
  else
    match r.executor with
    | none =>
        Except.error (PyErr.runtimeError
          "The concurrent task runner cannot be used to submit work after serialization.")
    | some _ =>
        Except.ok { r with
          futures := dictInsert r.futures key (FutureState.running call) }

/-- Model of `ConcurrentTaskRunner._run_and_store_result` (body of a cooperative
task): runs the callable under `try/except BaseException`, converting any
raised exception into a crashed state; stores the result in `_results`;
then `self._result_events[key].set()` — a raw dictionary access that would
raise `KeyError` after the store if the key had no event. Returns the
posterior state together with the exception, if any, escaping the task. -/
def ConcurrentTaskRunner.run_and_store_result (r : ConcurrentTaskRunner)
    (key : UUID) (call : Call) : ConcurrentTaskRunner × Option PyErr :=
  let result :=
    match call with
    | Call.returns s => s
    | Call.raises exc => exception_to_crashed_state exc
  let r₁ := { r with results := dictInsert r.results key result }
  match dictLookup r₁.result_events key with
  | none => (r₁, some (PyErr.keyError key))
  | some _ =>
      ({ r₁ with result_events := dictInsert r₁.result_events key true }, none)

/-- Model of `ConcurrentTaskRunner._run_and_store_result_sync` (body executed on a
worker thread): runs the callable under `try/except BaseException`,
converting any raised exception into a crashed state via
`run_sync(exception_to_crashed_state(exc))`, and stores the result in
`_results`. Never raises. -/
def ConcurrentTaskRunner.run_and_store_result_sync (r : ConcurrentTaskRunner)
    (key : UUID) (call : Call) : ConcurrentTaskRunner :=
  let result :=
    match call with
    | Call.returns s => s
    | Call.raises exc => run_sync (exception_to_crashed_state exc)
  { r with results := dictInsert r.results key result }

/-- One step of the cooperative scheduler: the task group picks the task
scheduled for `key` (if such a pending task exists) and runs
`_run_and_store_result` to completion. -/
def ConcurrentTaskRunner.coopStep (r : ConcurrentTaskRunner) (key : UUID) :
    ConcurrentTaskRunner × Option PyErr :=
  match r.task_group with
  | none => (r, none)
  | some tg =>
      match dictLookup tg key with
      | none => (r, none)
      | some call =>
          let r₁ := { r with
            task_group := some (tg.filter (fun p => p.1 ≠ key)) }
          r₁.run_and_store_result key call

/-- One worker-thread completion: if the future for `key` is still
in flight, the worker runs `_run_and_store_result_sync` inside the copied
context and the executor then marks the future done. -/
def ConcurrentTaskRunner.workerStep (r : ConcurrentTaskRunner) (key : UUID) :
    ConcurrentTaskRunner :=
  match dictLookup r.futures key with
  | some (FutureState.running call) =>
      let r₁ := r.run_and_store_result_sync key call
      { r₁ with futures := dictInsert r₁.futures key FutureState.done }
  | _ => r

/-- Model of `ConcurrentTaskRunner.wait_sync`: checks `_executor`, then performs
`wait([self._futures[key]], timeout=timeout)` — the raw dictionary access
raises `KeyError` for a key with no future — and finally returns
`self._results[key]` when present, else the `None` timeout value. The
snapshot semantics: a future still running at return time means the
timeout elapsed. -/
def ConcurrentTaskRunner.wait_sync (r : ConcurrentTaskRunner) (key : UUID) :
    Except PyErr (Option State) :=
  match r.executor with
  | none =>
      Except.error (PyErr.runtimeError
        "The concurrent task runner cannot be used to wait for work after serialization.")
  | some _ =>
      match dictLookup r.futures key with
      | none => Except.error (PyErr.keyError key)
      | some _ => Except.ok (dictLookup r.results key)

/-- Model of `ConcurrentTaskRunner._get_run_result`: awaits
`self._result_events[key]` inside `anyio.move_on_after(timeout)` — the raw
dictionary access raises `KeyError` for a key with no event. When the
event is set the stored result is read; when the timeout elapses first,
the `None` default is returned without cancelling the underlying work. -/
def ConcurrentTaskRunner.get_run_result (r : ConcurrentTaskRunner)
    (key : UUID) : Except PyErr (Option State) :=
  match dictLookup r.result_events key with
  | none => Except.error (PyErr.keyError key)
  | some ev =>
      if ev then
        match dictLookup r.results key with
        | some s => Except.ok (some s)
        | none => Except.error (PyErr.keyError key)
      else
        Except.ok none

/-- Model of `ConcurrentTaskRunner.wait`: checks `_task_group` (stripped by
serialization), then routes by submission path — `wait_sync` when the key
has a future, `_get_run_result` otherwise. -/
def ConcurrentTaskRunner.wait (r : ConcurrentTaskRunner) (key : UUID) :
    Except PyErr (Option State) :=
  match r.task_group with
  | none =>
      Except.error (PyErr.runtimeError
        "The concurrent task runner cannot be used to wait for work after serialization.")
  | some _ =>
      if (dictLookup r.futures key).isSome then r.wait_sync key
      else r.get_run_result key

/-- Exiting the `BaseTaskRunner.start` scope on a `ConcurrentTaskRunner`:
the exit stack closes the task group (which first runs every scheduled
cooperative task to completion) and shuts down the executor (waiting for
in-flight workers), then the `finally` block clears `_started`. The
attributes keep referencing the closed objects. -/
def ConcurrentTaskRunner.stop (r : ConcurrentTaskRunner) :
    ConcurrentTaskRunner :=
  let drainedCoop :=
    match r.task_group with
    | none => r
    | some tg =>
        (tg.map Prod.fst).foldl (fun s k => (s.coopStep k).1) r
  let drained :=
    (drainedCoop.futures.map Prod.fst).foldl
      (fun s k => s.workerStep k) drainedCoop
  { drained with started := false }

/-- The serialized representation produced by
`ConcurrentTaskRunner.__getstate__`: a copy of `__dict__` in which
`_task_group`, `_executor` and `_futures` are replaced by `None`. -/
structure SerializedRunner where
  started : Bool
  task_group : Option (List (UUID × Call))
  result_events : List (UUID × Bool)
  results : List (UUID × State)
  keys : List UUID
  executor : Option Unit
  futures : Option (List (UUID × FutureState))
deriving DecidableEq, Repr

/-- Model of `ConcurrentTaskRunner.__getstate__`: copies `__dict__` and sets
`_task_group`, `_executor` and `_futures` to `None`. -/
def ConcurrentTaskRunner.getstate (r : ConcurrentTaskRunner) :
    SerializedRunner :=
  { started := r.started
    task_group := none
    result_events := r.result_events
    results := r.results
    keys := r.keys
    executor := none
    futures := none }

/-- Model of `ConcurrentTaskRunner.__setstate__`: updates `__dict__` from the
serialized data, then resets `_task_group` and `_executor` to `None` and
`_futures` to an empty dict. -/
def ConcurrentTaskRunner.setstate (data : SerializedRunner) :
    ConcurrentTaskRunner :=
  { started := data.started
    task_group := none
    result_events := data.result_events
    results := data.results
    keys := data.keys
    executor := none
    futures := [] }

/-- A serialize/deserialize round trip of a `ConcurrentTaskRunner`. -/
def ConcurrentTaskRunner.roundtrip (r : ConcurrentTaskRunner) :
    ConcurrentTaskRunner :=
  ConcurrentTaskRunner.setstate r.getstate

/-! ## Duplicate and equality -/

/-- An instance of either concrete runner variant. -/
inductive Runner where
  | sequential (r : SequentialTaskRunner)
  | concurrent (r : ConcurrentTaskRunner)
deriving DecidableEq, Repr

/-- The concrete variant (`type(self)`) of a runner instance. -/
def Runner.kind : Runner → RunnerKind
  | Runner.sequential _ => RunnerKind.sequential
  | Runner.concurrent _ => RunnerKind.concurrent

/-- The public (non-underscore) attributes of a runner instance, the ones
compared by `BaseTaskRunner.__eq__`. For both variants in the source the
only such attribute is `logger`, set by `__init__` to
`get_logger(f"task_runner.\x7bself.name\x7d")`, hence determined by the
concrete type; every bookkeeping attribute (`_started`, `_results`,
`_task_group`, ...) starts with an underscore and is excluded. -/
structure PublicAttrs where
  logger : String
deriving DecidableEq, Repr

/-- Public attributes of an instance: only the logger, whose name is
derived from the variant name. -/
def Runner.publicAttrs (r : Runner) : PublicAttrs :=
  { logger := "task_runner." ++ runnerName r.kind }

/-- Result of `BaseTaskRunner.__eq__`: Python `True`, Python `False`, or
the `NotImplemented` sentinel. -/
inductive EqResult where
  | isTrue
  | isFalse
  | notDetermined
deriving DecidableEq, Repr

/-- Model of `BaseTaskRunner.__eq__`: `True` when `type(other) == type(self)` and
the public attribute dictionaries agree; `NotImplemented` otherwise (the
method never returns `False`). -/
def Runner.eq (self other : Runner) : EqResult :=
  if self.kind = other.kind ∧ self.publicAttrs = other.publicAttrs then
    EqResult.isTrue
  else
    EqResult.notDetermined

/-- Result of `duplicate`: a fresh runner or the `NotImplemented`
sentinel. -/
inductive DuplicateResult where
  | runner (r : Runner)
  | notImplementedSentinel
deriving DecidableEq, Repr

/-- Model of `BaseTaskRunner.duplicate`: the base class returns the
`NotImplemented` sentinel. -/
def BaseTaskRunner.duplicate : DuplicateResult :=
  DuplicateResult.notImplementedSentinel

/-- Model of `SequentialTaskRunner.duplicate`: `return type(self)()` — a freshly
initialized sequential runner. -/
def SequentialTaskRunner.duplicate (_r : SequentialTaskRunner) :
    SequentialTaskRunner :=
  SequentialTaskRunner.init

/-- Model of `ConcurrentTaskRunner.duplicate`: `return type(self)()` — a freshly
initialized concurrent runner. -/
def ConcurrentTaskRunner.duplicate (_r : ConcurrentTaskRunner) :
    ConcurrentTaskRunner :=
  ConcurrentTaskRunner.init

/-! ## Operations of a runner lifetime

For the append-only invariant we gather every operation of a
`ConcurrentTaskRunner` lifetime into one type and give it a single
semantics, taking each operation to the posterior runner state (for
fallible operations, the state after the call whether it raised or
returned; the source performs its checks before any mutation, except for
`_run_and_store_result`, whose partial effects `coopStep` keeps). -/

inductive Op where
  | submit (key : UUID) (call : Call)
  | submit_sync (key : UUID) (call : Call)
  | coopStep (key : UUID)
  | workerStep (key : UUID)
  | wait (key : UUID)
  | wait_sync (key : UUID)
  | roundtrip
deriving DecidableEq, Repr

/-- Posterior state of one operation on a `ConcurrentTaskRunner`. `wait`
and `wait_sync` only read state in the source, so they leave it
unchanged. -/
def Op.apply (op : Op) (r : ConcurrentTaskRunner) : ConcurrentTaskRunner :=
  match op with
  | Op.submit k c =>
      match r.submit k c with
      | Except.ok r' => r'
      | Except.error _ => r
  | Op.submit_sync k c =>
      match r.submit_sync k c with
      | Except.ok r' => r'
      | Except.error _ => r
  | Op.coopStep k => (r.coopStep k).1
  | Op.workerStep k => r.workerStep k
  | Op.wait _ => r
  | Op.wait_sync _ => r
  | Op.roundtrip => r.roundtrip

/-- The key whose submitted callable this operation may execute and whose
result-table entry it may therefore write. -/
def Op.execKey : Op → Option UUID
  | Op.coopStep k => some k
  | Op.workerStep k => some k
  | _ => none

/-! ## Auxiliary lemmas -/

theorem dictLookup_append_self {α : Type} (m : List (UUID × α)) (k : UUID)
    (v : α) (h : dictLookup m k = none) :
    dictLookup (m ++ [(k, v)]) k = some v := by
  induction m with
  | nil => simp [dictLookup]
  | cons hd tl ih =>
      obtain ⟨k₀, v₀⟩ := hd
      by_cases h₀ : k₀ = k
      · simp [dictLookup, h₀] at h
      · simp [dictLookup, h₀] at h ⊢
        exact ih h

/-- The Outcome a callable produces once run under the
`try/except BaseException` wrapper shared by all three execution sites. -/
def callOutcome : Call → State
  | Call.returns s => s
  | Call.raises exc => exception_to_crashed_state exc

theorem submit_ok (r : ConcurrentTaskRunner) (tg : List (UUID × Call))
    (key : UUID) (c : Call) (hstart : r.started = true)
    (htg : r.task_group = some tg) :
    r.submit key c = Except.ok { r with
      result_events := dictInsert r.result_events key false
      task_group := some (tg ++ [(key, c)]) } := by
  simp [ConcurrentTaskRunner.submit, hstart, htg]

theorem submit_sync_ok (r : ConcurrentTaskRunner) (key : UUID) (c : Call)
    (hstart : r.started = true) (hex : r.executor = some ()) :
    r.submit_sync key c = Except.ok { r with
      futures := dictInsert r.futures key (FutureState.running c) } := by
  simp [ConcurrentTaskRunner.submit_sync, hstart, hex]

theorem run_and_store_result_eq (r : ConcurrentTaskRunner) (key : UUID)
    (c : Call) (ev : Bool) (hev : dictLookup r.result_events key = some ev) :
    r.run_and_store_result key c =
      ({ r with
          results := dictInsert r.results key (callOutcome c)
          result_events := dictInsert r.result_events key true }, none) := by
  cases c <;>
    simp [ConcurrentTaskRunner.run_and_store_result, callOutcome, hev]

theorem coopStep_eq (r : ConcurrentTaskRunner) (tg : List (UUID × Call))
    (key : UUID) (c : Call) (ev : Bool)
    (htg : r.task_group = some tg) (hc : dictLookup tg key = some c)
    (hev : dictLookup r.result_events key = some ev) :
    r.coopStep key =
      ({ r with
          task_group := some (tg.filter (fun p => p.1 ≠ key))
          results := dictInsert r.results key (callOutcome c)
          result_events := dictInsert r.result_events key true }, none) := by
  simp only [ConcurrentTaskRunner.coopStep, htg, hc]
  rw [run_and_store_result_eq
    { r with task_group := some (tg.filter (fun p => p.1 ≠ key)) }
    key c ev hev]

theorem workerStep_eq (r : ConcurrentTaskRunner) (key : UUID) (c : Call)
    (hc : dictLookup r.futures key = some (FutureState.running c)) :
    r.workerStep key =
      { r with
          results := dictInsert r.results key (callOutcome c)
          futures := dictInsert r.futures key FutureState.done } := by
  cases c <;>
    simp [ConcurrentTaskRunner.workerStep, hc,
      ConcurrentTaskRunner.run_and_store_result_sync, run_sync, callOutcome]

/-! ## Claim theorems -/

/-- Claim C1. Fault containment: a submitted callable that raises is
handled on all three execution paths — the cooperative path accepts the
submission without raising, the scheduler step runs it without any
escaping exception and stores the crashed Outcome, and the runner accepts
a subsequent unrelated submission; likewise for the blocking path via
`submit_sync` and the worker step; and the inline execution of the
Sequential runner stores the crashed Outcome and returns normally. -/
theorem c1_fault_containment
    (r : ConcurrentTaskRunner) (tg : List (UUID × Call))
    (key key2 : UUID) (exc : Exc) (c2 : Call)
    (hstart : r.started = true)
    (htg : r.task_group = some tg)
    (hfresh : dictLookup tg key = none)
    (hex : r.executor = some ()) :
    ((r.submit key (Call.raises exc)).isOk = true ∧
      (((Op.submit key (Call.raises exc)).apply r).coopStep key).2 = none ∧
      dictLookup
        ((Op.coopStep key).apply
          ((Op.submit key (Call.raises exc)).apply r)).results key
        = some (State.crashed exc) ∧
      (((Op.coopStep key).apply
          ((Op.submit key (Call.raises exc)).apply r)).submit key2 c2).isOk
        = true) ∧
    ((r.submit_sync key (Call.raises exc)).isOk = true ∧
      dictLookup
        ((Op.workerStep key).apply
          ((Op.submit_sync key (Call.raises exc)).apply r)).results key
        = some (State.crashed exc) ∧
      (((Op.workerStep key).apply
          ((Op.submit_sync key (Call.raises exc)).apply r)).submit_sync
            key2 c2).isOk = true) ∧
    (∀ sq : SequentialTaskRunner,
      dictLookup (sq.submit key (Call.raises exc)).results key
        = some (State.crashed exc)) := by
  have h1 := submit_ok r tg key (Call.raises exc) hstart htg
  have h2 := coopStep_eq
    { r with
        result_events := dictInsert r.result_events key false
        task_group := some (tg ++ [(key, Call.raises exc)]) }
    (tg ++ [(key, Call.raises exc)]) key (Call.raises exc) false rfl
    (dictLookup_append_self tg key _ hfresh)
    (dictLookup_dictInsert_self r.result_events key false)
  have h3 := submit_sync_ok r key (Call.raises exc) hstart hex
  have h4 := workerStep_eq
    { r with futures :=
        dictInsert r.futures key (FutureState.running (Call.raises exc)) }
    key (Call.raises exc) (dictLookup_dictInsert_self r.futures key _)
  refine ⟨⟨?_, ?_, ?_, ?_⟩, ⟨?_, ?_, ?_⟩, ?_⟩
  · simp [h1, Except.isOk, Except.toBool]
  · simp [Op.apply, h1, h2]
  · simp [Op.apply, h1, h2, dictLookup_dictInsert_self, callOutcome,
      exception_to_crashed_state]
  · simp only [Op.apply, h1, h2]
    simp [ConcurrentTaskRunner.submit, hstart, Except.isOk, Except.toBool]
  · simp [h3, Except.isOk, Except.toBool]
  · simp [Op.apply, h3, h4, dictLookup_dictInsert_self, callOutcome,
      exception_to_crashed_state]
  · simp only [Op.apply, h3, h4]
    simp [ConcurrentTaskRunner.submit_sync, hstart, hex, Except.isOk,
      Except.toBool]
  · intro sq
    simp [SequentialTaskRunner.submit, dictLookup_dictInsert_self,
      exception_to_crashed_state]

/-- A freshly started concurrent runner with no submissions: the state
reached by `ConcurrentTaskRunner().start()`. Used to instantiate the claim
theorems at concrete inputs. -/
def startedRunner : ConcurrentTaskRunner :=
  { started := true
    task_group := some []
    result_events := []
    results := []
    keys := []
    executor := some ()
    futures := [] }

/-- Concrete instantiation of the fault-containment theorem: on the
started runner, a callable raising exception 7 crashes to
`State.crashed 7` on each path and the runner keeps accepting work. -/
theorem c1_fault_containment_witness :
    ((startedRunner.submit 0 (Call.raises 7)).isOk = true ∧
      (((Op.submit 0 (Call.raises 7)).apply startedRunner).coopStep 0).2
        = none ∧
      dictLookup ((Op.coopStep 0).apply
        ((Op.submit 0 (Call.raises 7)).apply startedRunner)).results 0
        = some (State.crashed 7) ∧
      (((Op.coopStep 0).apply
        ((Op.submit 0 (Call.raises 7)).apply startedRunner)).submit 1
          (Call.returns (State.completed 1))).isOk = true) ∧
    ((startedRunner.submit_sync 0 (Call.raises 7)).isOk = true ∧
      dictLookup ((Op.workerStep 0).apply
        ((Op.submit_sync 0 (Call.raises 7)).apply startedRunner)).results 0
        = some (State.crashed 7) ∧
      (((Op.workerStep 0).apply
        ((Op.submit_sync 0 (Call.raises 7)).apply startedRunner)).submit_sync
          1 (Call.returns (State.completed 1))).isOk = true) ∧
    dictLookup (SequentialTaskRunner.init.submit 0 (Call.raises 7)).results 0
      = some (State.crashed 7) := by
  have T := c1_fault_containment startedRunner [] 0 1 7
    (Call.returns (State.completed 1)) rfl rfl rfl rfl
  exact ⟨T.1, T.2.1, T.2.2 SequentialTaskRunner.init⟩

/-- Claim C3. Sequential inline execution: `submit` runs the callable to
completion inline and records its Outcome (the crashed conversion for a
raising callable) before returning, so an immediate `wait` returns exactly
that Outcome, and with never-reused keys each new Outcome is appended at
the end of the result table, i.e. the table lists Outcomes in submission
order. -/
theorem c3_sequential_inline
    (r : SequentialTaskRunner) (key : UUID) (call : Call)
    (hfresh : dictLookup r.results key = none) :
    dictLookup (r.submit key call).results key = some (callOutcome call) ∧
    (r.submit key call).wait key = Except.ok (callOutcome call) ∧
    (r.submit key call).results = r.results ++ [(key, callOutcome call)] ∧
    (r.submit key call).started = r.started := by
  cases call <;>
    simp [SequentialTaskRunner.submit, SequentialTaskRunner.wait,
      callOutcome, dictLookup_dictInsert_self,
      dictInsert_fresh _ _ _ hfresh, dictLookup_append_self, hfresh]

/-- Concrete instantiation of the sequential inline-execution theorem on a
fresh sequential runner with key 0 and a callable returning
`State.completed 5`. -/
theorem c3_sequential_inline_witness :
    dictLookup (SequentialTaskRunner.init.submit 0
        (Call.returns (State.completed 5))).results 0
      = some (callOutcome (Call.returns (State.completed 5))) ∧
    (SequentialTaskRunner.init.submit 0
        (Call.returns (State.completed 5))).wait 0
      = Except.ok (callOutcome (Call.returns (State.completed 5))) ∧
    (SequentialTaskRunner.init.submit 0
        (Call.returns (State.completed 5))).results
      = SequentialTaskRunner.init.results
          ++ [(0, callOutcome (Call.returns (State.completed 5)))] ∧
    (SequentialTaskRunner.init.submit 0
        (Call.returns (State.completed 5))).started
      = SequentialTaskRunner.init.started :=
  c3_sequential_inline SequentialTaskRunner.init 0
    (Call.returns (State.completed 5)) rfl

/-- Claim C2. A timeout on `wait` or `wait_sync` returns the absent value
without cancelling anything: on the cooperative path, while the completion
event for `key` is unset, `wait` returns `none`, leaves the runner state
(including the scheduled work) untouched, and once the scheduler step
completes the work, `wait` on the same key returns its recorded Outcome;
on the blocking path, while the future for `key2` is still running and no
result is recorded, `wait_sync` returns `none`, leaves the state
untouched, and once the worker step completes, `wait_sync` returns the
recorded Outcome. -/
theorem c2_timeout_no_cancel
    (r : ConcurrentTaskRunner) (tg : List (UUID × Call))
    (key key2 : UUID) (c c2 : Call)
    (htg : r.task_group = some tg)
    (hc : dictLookup tg key = some c)
    (hev : dictLookup r.result_events key = some false)
    (hfut : dictLookup r.futures key = none)
    (hfut2 : dictLookup r.futures key2 = some (FutureState.running c2))
    (hex : r.executor = some ())
    (hres2 : dictLookup r.results key2 = none) :
    (r.wait key = Except.ok none ∧
      (Op.wait key).apply r = r ∧
      ((Op.coopStep key).apply r).wait key
        = Except.ok (some (callOutcome c))) ∧
    (r.wait_sync key2 = Except.ok none ∧
      (Op.wait_sync key2).apply r = r ∧
      ((Op.workerStep key2).apply r).wait_sync key2
        = Except.ok (some (callOutcome c2))) := by
  have h2 := coopStep_eq r tg key c false htg hc hev
  have h4 := workerStep_eq r key2 c2 hfut2
  refine ⟨⟨?_, rfl, ?_⟩, ⟨?_, rfl, ?_⟩⟩
  · simp [ConcurrentTaskRunner.wait, htg, hfut,
      ConcurrentTaskRunner.get_run_result, hev]
  · simp only [Op.apply, h2]
    simp [ConcurrentTaskRunner.wait, hfut,
      ConcurrentTaskRunner.get_run_result, dictLookup_dictInsert_self]
  · simp [ConcurrentTaskRunner.wait_sync, hex, hfut2, hres2]
  · simp only [Op.apply, h4]
    simp [ConcurrentTaskRunner.wait_sync, hex, dictLookup_dictInsert_self]

/-- A started concurrent runner in mid-execution: key 0 was submitted on
the cooperative path (event created, work still scheduled), key 1 on the
blocking path (future still running), and key 2 has already completed.
Used to instantiate claim theorems at concrete inputs. -/
def midRunner : ConcurrentTaskRunner :=
  { started := true
    task_group := some [(0, Call.returns (State.completed 3))]
    result_events := [(0, false)]
    results := [(2, State.completed 8)]
    keys := []
    executor := some ()
    futures := [(1, FutureState.running (Call.raises 9))] }

/-- Concrete instantiation of the timeout theorem on `midRunner`: waiting
on either pending key times out with `none`, changes nothing, and waiting
again after the work completes yields the recorded Outcome. -/
theorem c2_timeout_no_cancel_witness :
    (midRunner.wait 0 = Except.ok none ∧
      (Op.wait 0).apply midRunner = midRunner ∧
      ((Op.coopStep 0).apply midRunner).wait 0
        = Except.ok (some (callOutcome (Call.returns (State.completed 3))))) ∧
    (midRunner.wait_sync 1 = Except.ok none ∧
      (Op.wait_sync 1).apply midRunner = midRunner ∧
      ((Op.workerStep 1).apply midRunner).wait_sync 1
        = Except.ok (some (callOutcome (Call.raises 9)))) :=
  c2_timeout_no_cancel midRunner [(0, Call.returns (State.completed 3))] 0 1
    (Call.returns (State.completed 3)) (Call.raises 9)
    rfl rfl rfl rfl rfl rfl rfl

/-- A sequential runner inside its `start` scope. -/
def startedSeqRunner : SequentialTaskRunner :=
  { started := true, results := [] }

/-- Counterexample to claim C4 as stated: `SequentialTaskRunner.submit`
performs no lifecycle check, so on a never-started sequential runner it
silently accepts the work, executes it inline and records the Outcome —
no usage error is raised. -/
theorem c4_usage_errors_counterexample :
    SequentialTaskRunner.init.started = false ∧
    (SequentialTaskRunner.init.submit 0
        (Call.returns (State.completed 2))).results
      = [(0, State.completed 2)] :=
  ⟨rfl, rfl⟩

/-- Claim C4, amended. Double start raises a usage error for both
variants (the check is in the shared base `start`); on the Concurrent
runner, `submit` and `submit_sync` raise a usage error when the runner was
never started and likewise after its start scope has exited; the
`submit` of the Sequential runner, however, performs no lifecycle check and
executes the work inline regardless of the started flag. -/
theorem c4_usage_errors_amended
    (rs : SequentialTaskRunner) (rc rc' : ConcurrentTaskRunner)
    (rs' : SequentialTaskRunner) (key : UUID) (call : Call)
    (hs : rs.started = true)
    (hc : rc.started = true)
    (hn : rc'.started = false) :
    rs.start = Except.error
      (PyErr.runtimeError "The task runner is already started!") ∧
    rc.start = Except.error
      (PyErr.runtimeError "The task runner is already started!") ∧
    rc'.submit key call = Except.error (PyErr.runtimeError
      "The task runner must be started before submitting work.") ∧
    rc'.submit_sync key call = Except.error (PyErr.runtimeError
      "The task runner must be started before submitting work.") ∧
    rc.stop.started = false ∧
    rc.stop.submit key call = Except.error (PyErr.runtimeError
      "The task runner must be started before submitting work.") ∧
    rc.stop.submit_sync key call = Except.error (PyErr.runtimeError
      "The task runner must be started before submitting work.") ∧
    dictLookup (rs'.submit key call).results key
      = some (callOutcome call) := by
  refine ⟨?_, ?_, ?_, ?_, rfl, rfl, rfl, ?_⟩
  · simp [SequentialTaskRunner.start, hs]
  · simp [ConcurrentTaskRunner.start, hc]
  · simp [ConcurrentTaskRunner.submit, hn]
  · simp [ConcurrentTaskRunner.submit_sync, hn]
  · cases call <;>
      simp [SequentialTaskRunner.submit, callOutcome,
        dictLookup_dictInsert_self]

/-- Concrete instantiation of the amended usage-error theorem: double
start raises on a started runner of each variant, submit before start and
after stop raises on the concurrent runner, and the never-started
sequential runner executes submitted work anyway. -/
theorem c4_usage_errors_amended_witness :
    startedSeqRunner.start = Except.error
      (PyErr.runtimeError "The task runner is already started!") ∧
    startedRunner.start = Except.error
      (PyErr.runtimeError "The task runner is already started!") ∧
    ConcurrentTaskRunner.init.submit 0 (Call.returns (State.completed 2))
      = Except.error (PyErr.runtimeError
        "The task runner must be started before submitting work.") ∧
    ConcurrentTaskRunner.init.submit_sync 0 (Call.returns (State.completed 2))
      = Except.error (PyErr.runtimeError
        "The task runner must be started before submitting work.") ∧
    startedRunner.stop.started = false ∧
    startedRunner.stop.submit 0 (Call.returns (State.completed 2))
      = Except.error (PyErr.runtimeError
        "The task runner must be started before submitting work.") ∧
    startedRunner.stop.submit_sync 0 (Call.returns (State.completed 2))
      = Except.error (PyErr.runtimeError
        "The task runner must be started before submitting work.") ∧
    dictLookup (SequentialTaskRunner.init.submit 0
        (Call.returns (State.completed 2))).results 0
      = some (callOutcome (Call.returns (State.completed 2))) :=
  c4_usage_errors_amended startedSeqRunner startedRunner
    ConcurrentTaskRunner.init SequentialTaskRunner.init 0
    (Call.returns (State.completed 2)) rfl rfl rfl

/-- A started concurrent runner holding completed work: key 0 finished on
the cooperative path, key 1 finished on the blocking path. -/
def doneRunner : ConcurrentTaskRunner :=
  { started := true
    task_group := some []
    result_events := [(0, true)]
    results := [(0, State.completed 3), (1, State.crashed 9)]
    keys := []
    executor := some ()
    futures := [(1, FutureState.done)] }

/-- Counterexample to claim C5 as stated: serializing then deserializing a
never-started Concurrent runner yields a copy whose `submit` fails with
exactly the plain "not started" usage error — not an error distinct from
it. -/
theorem c5_serialization_counterexample :
    ConcurrentTaskRunner.init.roundtrip.submit 0
        (Call.returns (State.completed 1))
      = Except.error (PyErr.runtimeError
        "The task runner must be started before submitting work.") :=
  rfl

/-- Claim C5, amended: for a Concurrent runner that was started when
serialized, the serialized representation excludes the task group, the
executor and the in-flight future handles; deserializing resets them to
absent (futures to an empty table) while preserving the result table and
event table unchanged; and `submit`/`submit_sync` on the deserialized,
not-restarted copy fail with the after-serialization usage error, which
is distinct from the "not started" error. -/
theorem c5_serialization_roundtrip
    (r : ConcurrentTaskRunner) (key : UUID) (call : Call)
    (hstart : r.started = true) :
    (r.getstate.task_group = none ∧
      r.getstate.executor = none ∧
      r.getstate.futures = none) ∧
    (r.roundtrip.results = r.results ∧
      r.roundtrip.result_events = r.result_events ∧
      r.roundtrip.task_group = none ∧
      r.roundtrip.executor = none ∧
      r.roundtrip.futures = []) ∧
    (r.roundtrip.submit key call = Except.error (PyErr.runtimeError
        "The concurrent task runner cannot be used to submit work after serialization.") ∧
      r.roundtrip.submit_sync key call = Except.error (PyErr.runtimeError
        "The concurrent task runner cannot be used to submit work after serialization.") ∧
      PyErr.runtimeError
          "The concurrent task runner cannot be used to submit work after serialization."
        ≠ PyErr.runtimeError
          "The task runner must be started before submitting work.") := by
  refine ⟨⟨rfl, rfl, rfl⟩, ⟨rfl, rfl, rfl, rfl, rfl⟩, ?_, ?_, by simp⟩
  · simp [ConcurrentTaskRunner.roundtrip, ConcurrentTaskRunner.getstate,
      ConcurrentTaskRunner.setstate, ConcurrentTaskRunner.submit, hstart]
  · simp [ConcurrentTaskRunner.roundtrip, ConcurrentTaskRunner.getstate,
      ConcurrentTaskRunner.setstate, ConcurrentTaskRunner.submit_sync,
      hstart]

/-- Concrete instantiation of the serialization round-trip theorem on a
started runner holding two completed Outcomes. -/
theorem c5_serialization_roundtrip_witness :
    (doneRunner.getstate.task_group = none ∧
      doneRunner.getstate.executor = none ∧
      doneRunner.getstate.futures = none) ∧
    (doneRunner.roundtrip.results = doneRunner.results ∧
      doneRunner.roundtrip.result_events = doneRunner.result_events ∧
      doneRunner.roundtrip.task_group = none ∧
      doneRunner.roundtrip.executor = none ∧
      doneRunner.roundtrip.futures = []) ∧
    (doneRunner.roundtrip.submit 5 (Call.returns (State.completed 1))
        = Except.error (PyErr.runtimeError
          "The concurrent task runner cannot be used to submit work after serialization.") ∧
      doneRunner.roundtrip.submit_sync 5 (Call.returns (State.completed 1))
        = Except.error (PyErr.runtimeError
          "The concurrent task runner cannot be used to submit work after serialization.") ∧
      PyErr.runtimeError
          "The concurrent task runner cannot be used to submit work after serialization."
        ≠ PyErr.runtimeError
          "The task runner must be started before submitting work.") :=
  c5_serialization_roundtrip doneRunner 5 (Call.returns (State.completed 1))
    rfl

/-- Claim C6. On a started, never-serialized concurrent runner (task
group and executor live), `wait` routes a key with a future to
`wait_sync` and a key without one to `_get_run_result`; and for any key
submitted via either path (so having a future or a completion event,
where a set event implies a recorded result, as the executing task writes
the result before setting the event), `wait` returns `Except.ok` — the
recorded Outcome or the absent value — and never an error. -/
theorem c6_wait_routes_and_never_raises
    (r : ConcurrentTaskRunner) (tg : List (UUID × Call)) (key : UUID)
    (htg : r.task_group = some tg)
    (hex : r.executor = some ())
    (hsubmitted : (dictLookup r.futures key).isSome = true ∨
      (dictLookup r.result_events key).isSome = true)
    (hinv : dictLookup r.result_events key = some true →
      (dictLookup r.results key).isSome = true) :
    ((dictLookup r.futures key).isSome = true →
      r.wait key = r.wait_sync key) ∧
    ((dictLookup r.futures key).isSome = false →
      r.wait key = r.get_run_result key) ∧
    (r.wait key = Except.ok none ∨
      ∃ v, r.wait key = Except.ok (some v) ∧
        dictLookup r.results key = some v) := by
  cases hfut : dictLookup r.futures key with
  | some f =>
      refine ⟨fun _ => ?_, fun h => by simp [hfut] at h, ?_⟩
      · simp [ConcurrentTaskRunner.wait, htg, hfut]
      · cases hres : dictLookup r.results key with
        | none =>
            exact Or.inl (by
              simp [ConcurrentTaskRunner.wait, htg, hfut,
                ConcurrentTaskRunner.wait_sync, hex, hres])
        | some v =>
            exact Or.inr ⟨v, by
              simp [ConcurrentTaskRunner.wait, htg, hfut,
                ConcurrentTaskRunner.wait_sync, hex, hres], rfl⟩
  | none =>
      refine ⟨fun h => by simp [hfut] at h, fun _ => ?_, ?_⟩
      · simp [ConcurrentTaskRunner.wait, htg, hfut]
      · cases hev : dictLookup r.result_events key with
        | none =>
            rcases hsubmitted with h | h
            · rw [hfut] at h
              simp at h
            · rw [hev] at h
              simp at h
        | some ev =>
            cases ev with
            | false =>
                exact Or.inl (by
                  simp [ConcurrentTaskRunner.wait, htg, hfut,
                    ConcurrentTaskRunner.get_run_result, hev])
            | true =>
                have hsome := hinv hev
                cases hres : dictLookup r.results key with
                | none => rw [hres] at hsome; simp at hsome
                | some v =>
                    exact Or.inr ⟨v, by
                      simp [ConcurrentTaskRunner.wait, htg, hfut,
                        ConcurrentTaskRunner.get_run_result, hev, hres],
                      rfl⟩

/-- Concrete instantiation of the wait-routing theorem on `doneRunner` at
key 0, which was submitted cooperatively and has completed. -/
theorem c6_wait_routes_and_never_raises_witness :
    ((dictLookup doneRunner.futures 0).isSome = true →
      doneRunner.wait 0 = doneRunner.wait_sync 0) ∧
    ((dictLookup doneRunner.futures 0).isSome = false →
      doneRunner.wait 0 = doneRunner.get_run_result 0) ∧
    (doneRunner.wait 0 = Except.ok none ∨
      ∃ v, doneRunner.wait 0 = Except.ok (some v) ∧
        dictLookup doneRunner.results 0 = some v) :=
  c6_wait_routes_and_never_raises doneRunner [] 0 rfl rfl
    (Or.inr rfl) (fun _ => rfl)

/-- Claim C7. Append-only result table: provided the executing operations
only run keys that have no recorded Outcome yet (the caller never reuses a
run key, so a key is executed at most once), every operation of the
runner lifetime — submit on either path, a scheduler or worker step, a
wait on either path, or a serialization round trip — preserves every
existing result-table entry unchanged. -/
theorem c7_result_table_append_only
    (op : Op) (r : ConcurrentTaskRunner) (k : UUID) (v : State)
    (hnoreuse : ∀ k', op.execKey = some k' →
      dictLookup r.results k' = none)
    (hentry : dictLookup r.results k = some v) :
    dictLookup (op.apply r).results k = some v := by
  cases op with
  | wait key => exact hentry
  | wait_sync key => exact hentry
  | roundtrip => exact hentry
  | submit key c =>
      cases hs : r.started <;> cases htg : r.task_group <;>
        simp [Op.apply, ConcurrentTaskRunner.submit, hs, htg, hentry]
  | submit_sync key c =>
      cases hs : r.started <;> cases hexe : r.executor <;>
        simp [Op.apply, ConcurrentTaskRunner.submit_sync, hs, hexe, hentry]
  | coopStep key =>
      have hfree : dictLookup r.results key = none := hnoreuse key rfl
      have hne : key ≠ k := by
        intro h
        rw [h, hentry] at hfree
        cases hfree
      cases htg : r.task_group with
      | none => simp [Op.apply, ConcurrentTaskRunner.coopStep, htg, hentry]
      | some tg =>
          cases hc : dictLookup tg key with
          | none =>
              simp [Op.apply, ConcurrentTaskRunner.coopStep, htg, hc, hentry]
          | some c =>
              have h2 := coopStep_eq r tg key c
              cases hev : dictLookup r.result_events key with
              | none =>
                  simp [Op.apply, ConcurrentTaskRunner.coopStep, htg, hc,
                    ConcurrentTaskRunner.run_and_store_result, hev,
                    dictLookup_dictInsert_ne _ _ _ _ hne, hentry]
              | some ev =>
                  rw [Op.apply, h2 ev htg hc hev]
                  simp [dictLookup_dictInsert_ne _ _ _ _ hne, hentry]
  | workerStep key =>
      have hfree : dictLookup r.results key = none := hnoreuse key rfl
      have hne : key ≠ k := by
        intro h
        rw [h, hentry] at hfree
        cases hfree
      cases hf : dictLookup r.futures key with
      | none => simp [Op.apply, ConcurrentTaskRunner.workerStep, hf, hentry]
      | some fut =>
          cases fut with
          | done =>
              simp [Op.apply, ConcurrentTaskRunner.workerStep, hf, hentry]
          | running c =>
              rw [Op.apply, workerStep_eq r key c hf]
              simp [dictLookup_dictInsert_ne _ _ _ _ hne, hentry]

/-- Concrete instantiation of the append-only theorem: a worker step
completing key 1 on `midRunner` leaves the recorded entry for key 2
unchanged. -/
theorem c7_result_table_append_only_witness :
    dictLookup ((Op.workerStep 1).apply midRunner).results 2
      = some (State.completed 8) :=
  c7_result_table_append_only (Op.workerStep 1) midRunner 2
    (State.completed 8) (fun k' h => by cases h; rfl) rfl

/-- Claim C8. `__eq__` returns Python `True` exactly when the two
instances have the same concrete variant and identical public
(non-underscore) attributes; it never returns Python `False`; whenever
the comparison is not decided in the affirmative — in particular for
different concrete variants — it returns the `NotImplemented` sentinel. -/
theorem c8_equality_semantics (a b : Runner) :
    (a.eq b = EqResult.isTrue ↔
      a.kind = b.kind ∧ a.publicAttrs = b.publicAttrs) ∧
    a.eq b ≠ EqResult.isFalse ∧
    (a.kind ≠ b.kind → a.eq b = EqResult.notDetermined) := by
  by_cases h : a.kind = b.kind ∧ a.publicAttrs = b.publicAttrs
  · refine ⟨by simp [Runner.eq, h], by simp [Runner.eq, h], ?_⟩
    intro hne
    exact absurd h.1 hne
  · refine ⟨by simp [Runner.eq, h], by simp [Runner.eq, h], ?_⟩
    intro _
    simp [Runner.eq, h]

/-- Concrete instantiation of the equality theorem for a sequential and a
concurrent runner instance. -/
theorem c8_equality_semantics_witness :
    ((Runner.sequential SequentialTaskRunner.init).eq
        (Runner.concurrent ConcurrentTaskRunner.init) = EqResult.isTrue ↔
      (Runner.sequential SequentialTaskRunner.init).kind
          = (Runner.concurrent ConcurrentTaskRunner.init).kind ∧
        (Runner.sequential SequentialTaskRunner.init).publicAttrs
          = (Runner.concurrent ConcurrentTaskRunner.init).publicAttrs) ∧
    (Runner.sequential SequentialTaskRunner.init).eq
        (Runner.concurrent ConcurrentTaskRunner.init) ≠ EqResult.isFalse ∧
    ((Runner.sequential SequentialTaskRunner.init).kind
        ≠ (Runner.concurrent ConcurrentTaskRunner.init).kind →
      (Runner.sequential SequentialTaskRunner.init).eq
          (Runner.concurrent ConcurrentTaskRunner.init)
        = EqResult.notDetermined) :=
  c8_equality_semantics (Runner.sequential SequentialTaskRunner.init)
    (Runner.concurrent ConcurrentTaskRunner.init)

/-- Claim C9. `duplicate`: the base contract returns the `NotImplemented`
sentinel; each concrete variant returns a freshly initialized runner of
the same variant — unstarted, with empty result/event/future tables and
no live resources (independent of whatever state the original holds) —
that compares equal to the original under `__eq__`. -/
theorem c9_duplicate_semantics (rs : SequentialTaskRunner)
    (rc : ConcurrentTaskRunner) :
    BaseTaskRunner.duplicate = DuplicateResult.notImplementedSentinel ∧
    (rs.duplicate.started = false ∧
      rs.duplicate.results = [] ∧
      (Runner.sequential rs.duplicate).eq (Runner.sequential rs)
        = EqResult.isTrue) ∧
    (rc.duplicate.started = false ∧
      rc.duplicate.task_group = none ∧
      rc.duplicate.executor = none ∧
      rc.duplicate.results = [] ∧
      rc.duplicate.result_events = [] ∧
      rc.duplicate.futures = [] ∧
      (Runner.concurrent rc.duplicate).eq (Runner.concurrent rc)
        = EqResult.isTrue) := by
  refine ⟨rfl, ⟨rfl, rfl, ?_⟩, rfl, rfl, rfl, rfl, rfl, rfl, ?_⟩ <;>
    simp [Runner.eq, Runner.kind, Runner.publicAttrs]

/-- Claim C10. `wait_sync` consults only the futures table: a key
submitted cooperatively (completion event present, no future) makes
`wait_sync` raise `KeyError`, while `wait` on the same key succeeds by
routing to the cooperative strategy. -/
theorem c10_wait_sync_requires_future
    (r : ConcurrentTaskRunner) (tg : List (UUID × Call)) (key : UUID)
    (ev : Bool)
    (htg : r.task_group = some tg)
    (hex : r.executor = some ())
    (hev : dictLookup r.result_events key = some ev)
    (hfut : dictLookup r.futures key = none)
    (hinv : ev = true → (dictLookup r.results key).isSome = true) :
    r.wait_sync key = Except.error (PyErr.keyError key) ∧
    ∃ res, r.wait key = Except.ok res := by
  constructor
  · simp [ConcurrentTaskRunner.wait_sync, hex, hfut]
  · cases ev with
    | false =>
        exact ⟨none, by
          simp [ConcurrentTaskRunner.wait, htg, hfut,
            ConcurrentTaskRunner.get_run_result, hev]⟩
    | true =>
        have hsome := hinv rfl
        cases hres : dictLookup r.results key with
        | none => rw [hres] at hsome; cases hsome
        | some v =>
            exact ⟨some v, by
              simp [ConcurrentTaskRunner.wait, htg, hfut,
                ConcurrentTaskRunner.get_run_result, hev, hres]⟩

/-- Concrete instantiation of the `wait_sync` key-error theorem on
`midRunner` at the cooperatively submitted key 0. -/
theorem c10_wait_sync_requires_future_witness :
    midRunner.wait_sync 0 = Except.error (PyErr.keyError 0) ∧
    ∃ res, midRunner.wait 0 = Except.ok res :=
  c10_wait_sync_requires_future midRunner
    [(0, Call.returns (State.completed 3))] 0 false rfl rfl rfl rfl
    (fun h => by cases h)

end Prefect
